import Mathlib

/-!
# goapi: startup, middleware pipeline and database scoping

A shallow embedding of `main.go`: the startup sequence of `main`, the router
built by `main`, `loginRouter` and `APIRouter`, and the per-request closure
`mongoMiddleware`.  Calls into packages outside the file (godotenv, os, log,
mgo, net/http, chi, helpers) are recorded, in program order, as a list of
`Call` values; the packages themselves are represented by the part of their
contract that `main.go` consumes.
-/

namespace GoApi

/-! ## The database driver as seen from main.go -/

/-- An mgo session handle: either the one produced by `mgo.Dial` for a URL, or
the result of `Clone` on another session. -/
inductive Session where
  | dialled (url : String)
  | cloned (parent : Session)
deriving DecidableEq, Repr

/-- The value `*mgo.Database`: `Session.DB(name)` pairs the session with a name. -/
structure Database where
  session : Session
  name : String
deriving DecidableEq, Repr

/-- Model of `(*Session).Clone`. -/
def Session.Clone (s : Session) : Session := Session.cloned s

/-- Model of `(*Session).DB`. -/
def Session.DB (s : Session) (name : String) : Database := { session := s, name := name }

/-- The two results of `mgo.Dial(url)`: on success a session and a nil error, on
failure a nil session and the error.  `dialErr url` is the error the driver
reports for `url`, `none` when the dial succeeds. -/
def mgoDial (dialErr : String → Option String) (url : String) : Option Session × Option String :=
  match dialErr url with
  | none => (some (Session.dialled url), none)
  | some e => (none, some e)

/-! ## Request context -/

/-- Context keys (`helpers.DbKey` is one of them). -/
abbrev Key := String

/-- Values stored in a request context; `nil` is what `Value` answers for an
unbound key. -/
inductive Value where
  | nil
  | str (s : String)
  | database (db : Database)
deriving DecidableEq, Repr

/-- A `context.Context` seen through `Value`: a chain of bindings. -/
inductive Context where
  | background
  | withValue (parent : Context) (key : Key) (val : Value)
deriving DecidableEq, Repr

/-- Model of `context.WithValue`: a new context whose parent is the old one. -/
def Context.WithValue (parent : Context) (key : Key) (val : Value) : Context :=
  Context.withValue parent key val

/-- Model of `ctx.Value(key)`: the innermost binding of `key`, else `nil`. -/
def Context.Value : Context → Key → Value
  | Context.background, _ => Value.nil
  | Context.withValue parent k v, key => if k = key then v else parent.Value key

/-! ## net/http -/

/-- The part of `*http.Request` the routing and the middleware look at. -/
structure Request where
  method : String
  path : String
  ctx : Context
deriving DecidableEq, Repr

/-- Model of `r.Context()`. -/
def Request.Context (r : Request) : Context := r.ctx

/-- Model of `r.WithContext(ctx)`: a copy of the request with the context replaced. -/
def Request.WithContext (r : Request) (ctx : GoApi.Context) : Request := { r with ctx := ctx }

/-- State of an `http.ResponseWriter`: the header map, the status line once it
has been written, and the body written so far. -/
structure ResponseWriter where
  header : List (String × String)
  status : Option Nat
  body : String
deriving DecidableEq, Repr

/-- A response writer nothing has been written to. -/
def ResponseWriter.fresh : ResponseWriter := { header := [], status := none, body := "" }

/-- Model of `Header().Set`. -/
def ResponseWriter.SetHeader (w : ResponseWriter) (k v : String) : ResponseWriter :=
  { w with header := (k, v) :: w.header.filter (fun kv => kv.1 != k) }

/-- Model of `Header().Get`. -/
def ResponseWriter.GetHeader (w : ResponseWriter) (k : String) : Option String :=
  (w.header.find? (fun kv => kv.1 == k)).map Prod.snd

/-- Model of `WriteHeader`: the first call fixes the status, later calls are ignored. -/
def ResponseWriter.WriteHeader (w : ResponseWriter) (code : Nat) : ResponseWriter :=
  match w.status with
  | some _ => w
  | none => { w with status := some code }

/-- Model of `Write`: an unwritten header is sent as 200 first. -/
def ResponseWriter.Write (w : ResponseWriter) (s : String) : ResponseWriter :=
  let w1 := w.WriteHeader 200
  { w1 with body := w1.body ++ s }

/-- Model of `http.Error(w, msg, code)`: plain-text content type, the status, and
the message followed by a newline. -/
def httpError (w : ResponseWriter) (msg : String) (code : Nat) : ResponseWriter :=
  let w1 := w.SetHeader "Content-Type" "text/plain; charset=utf-8"
  let w2 := w1.SetHeader "X-Content-Type-Options" "nosniff"
  let w3 := w2.WriteHeader code
  w3.Write (msg ++ "\n")

/-- How a handler invocation ends. -/
inductive Exit where
  | returned
  | panicked (v : String)
deriving DecidableEq, Repr

/-- A downstream `http.Handler` as the middleware sees it: given the writer and
the request it leaves the writer in some state and returns or panics. -/
abbrev Handler := ResponseWriter → Request → ResponseWriter × Exit

/-- The runtime error of a method call through a nil pointer. -/
def nilDereference : String := "runtime error: invalid memory address or nil pointer dereference"

/-! ## chi: middleware identities and the route table -/

/-- One second as a `time.Duration` (nanoseconds). -/
def Second : Nat := 1000000000

/-- The middleware values `main.go` registers.  `mongoMiddleware` is the closure
built in `main`; it captures `dbURL` and `dbName`. -/
inductive Middleware where
  | Logger
  | RequestID
  | RealIP
  | Recoverer
  | mongoMiddleware (dbURL dbName : String)
  | CloseNotify
  | Timeout (d : Nat)
  | NoCache
  | BasicMiddleware
  | JwtAuthMiddleware
deriving DecidableEq, Repr

/-- The endpoint handlers of package `handlers`. -/
inductive HandlerFunc where
  | SignUpHandler
  | SignInHandler
  | GetMeHandler
  | UpdateMeHandler
deriving DecidableEq, Repr

/-- One binding of the route table: method, full path, the middleware of the
sub-routers it was mounted through (outermost first), and the endpoint. -/
structure Route where
  method : String
  pattern : String
  middlewares : List Middleware
  handler : HandlerFunc
deriving DecidableEq, Repr

/-- A chi router: its own middleware stack in registration order (the first
registered is the outermost) and its route bindings. -/
structure Mux where
  middlewares : List Middleware
  routes : List Route
deriving DecidableEq, Repr

/-- Model of `chi.NewRouter()`. -/
def NewRouter : Mux := { middlewares := [], routes := [] }

/-- Model of `r.Use(mw)`: appends to the stack of the router. -/
def Mux.Use (mx : Mux) (mw : Middleware) : Mux :=
  { mx with middlewares := mx.middlewares ++ [mw] }

/-- Binds `method pattern` to an endpoint on this router. -/
def Mux.handle (mx : Mux) (method pattern : String) (h : HandlerFunc) : Mux :=
  { mx with routes := mx.routes ++ [{ method := method, pattern := pattern, middlewares := [], handler := h }] }

/-- Model of `r.Get`. -/
def Mux.Get (mx : Mux) (pattern : String) (h : HandlerFunc) : Mux := mx.handle "GET" pattern h

/-- Model of `r.Post`. -/
def Mux.Post (mx : Mux) (pattern : String) (h : HandlerFunc) : Mux := mx.handle "POST" pattern h

/-- Model of `r.Put`. -/
def Mux.Put (mx : Mux) (pattern : String) (h : HandlerFunc) : Mux := mx.handle "PUT" pattern h

/-- Does the pattern end in a slash? -/
def endsInSlash (pattern : String) : Bool := pattern.data.getLast? == some '/'

/-- The mount pattern without its trailing slash, if it has one. -/
def mountBase (pattern : String) : String :=
  if endsInSlash pattern then String.mk pattern.data.dropLast else pattern

/-- A route of the mounted router `sub`, served at full path `path` behind the
middleware stack of `sub`. -/
def Mux.rebind (sub : Mux) (path : String) (rt : Route) : Route :=
  { rt with pattern := path, middlewares := sub.middlewares ++ rt.middlewares }

/-- Model of `r.Mount(pattern, sub)`.  chi registers the sub-router, for all
methods, under `pattern` and `pattern + "/"` (when the pattern does not itself
end in a slash) and under the wildcard `pattern + "/*"`; the sub-router then
routes the path `"/" + rest`, where `rest` is what the wildcard matched (empty
for the first two).  So the `/` route of `sub` is served at the mount point
and at the mount point followed by a slash, and every other route of `sub` at
the mount point followed by its own pattern. -/
def Mux.Mount (mx : Mux) (pattern : String) (sub : Mux) : Mux :=
  let atRoot := sub.routes.filter (fun rt => rt.pattern == "/")
  let below := sub.routes.filter (fun rt => rt.pattern != "/")
  -- pattern: the route path is "/"
  let exact := if endsInSlash pattern then [] else atRoot.map (sub.rebind pattern)
  -- pattern + "/": the route path is "/"
  let slash := atRoot.map (sub.rebind (mountBase pattern ++ "/"))
  -- pattern + "/*" with a non-empty rest: the route path is "/" + rest
  let wild := below.map (fun rt => sub.rebind (mountBase pattern ++ rt.pattern) rt)
  { mx with routes := mx.routes ++ exact ++ slash ++ wild }

/-- The binding serving `method path`, if any. -/
def Mux.dispatch (mx : Mux) (method path : String) : Option Route :=
  mx.routes.find? (fun rt => rt.method == method && rt.pattern == path)

/-- The full middleware stack in front of a route: the own stack of the router
followed by that of the sub-routers, outermost first. -/
def Mux.stack (mx : Mux) (rt : Route) : List Middleware := mx.middlewares ++ rt.middlewares

/-- Layer `a` wraps layer `b` in a stack listed outermost first: `b` occurs and
the first `a` comes before the first `b`. -/
def wraps (a b : Middleware) (stack : List Middleware) : Bool :=
  decide (stack.indexOf a < stack.indexOf b) && decide (stack.indexOf b < stack.length)

/-! ## Calls leaving main.go -/

/-- The bytes of a string, `[]byte(s)`. -/
def bytes (s : String) : List UInt8 := s.toUTF8.data.toList

/-- A call from `main.go` into another package, with its arguments (and for
`mgo.Dial` the session it returned).  The receiver of `Clone` is the pointer
`mgo.Dial` returned, which is nil (`none`) after a failed dial. -/
inductive Call where
  | godotenvLoad (file : String)
  | logFatal (msg : String)
  | osGetenv (name : String)
  | SetJwtSecret (secret : List UInt8)
  | logPrintln (args : List String)
  | ListenAndServe (addr : String) (handler : Mux)
  | mgoDial (url : String) (session : Option Session)
  | httpError (msg : String) (code : Nat)
  | Clone (s : Option Session)
  | Close (s : Session)
  | DB (s : Session) (name : String)
  | ServeHTTP (r : Request)
deriving DecidableEq, Repr

/-- Is the call `helpers.SetJwtSecret`? -/
def Call.isSetJwtSecret : Call → Bool
  | Call.SetJwtSecret _ => true
  | _ => false

/-- Is the call `http.ListenAndServe`? -/
def Call.isListenAndServe : Call → Bool
  | Call.ListenAndServe _ _ => true
  | _ => false

/-- Is the call `os.Getenv`? -/
def Call.isGetenv : Call → Bool
  | Call.osGetenv _ => true
  | _ => false

/-- Is the call the downstream `next.ServeHTTP`? -/
def Call.isServeHTTP : Call → Bool
  | Call.ServeHTTP _ => true
  | _ => false

/-- Is the call a method call on a session (`Clone`, `Close`, `DB`)? -/
def Call.usesSession : Call → Bool
  | Call.Clone _ => true
  | Call.Close _ => true
  | Call.DB _ _ => true
  | _ => false

/-- The sessions a list of calls opened: those `mgo.Dial` returned and those
`Clone` produced. -/
def opened : List Call → List Session
  | [] => []
  | Call.mgoDial _ (some s) :: cs => s :: opened cs
  | Call.Clone (some s) :: cs => s.Clone :: opened cs
  | _ :: cs => opened cs

/-- How many times a list of calls closes session `s`. -/
def closeCount (calls : List Call) (s : Session) : Nat := calls.count (Call.Close s)

/-! ## The database scoping middleware -/

/-- What serving one request through the middleware did: the writer afterwards,
the calls the middleware itself made, and how it ended. -/
structure Served where
  w : ResponseWriter
  calls : List Call
  exit : Exit
deriving DecidableEq, Repr

/-- The closure `mongoMiddleware` of `main` (lines 36-52) applied to `next`, serving
request `r` on writer `w`.  `dialErr` is the answer of the driver to a dial and `DbKey`
is `helpers.DbKey`; `dbURL` and `dbName` are the captured variables of `main`. -/
def mongoMiddleware (dialErr : String → Option String) (DbKey : Key) (dbURL dbName : String)
    (next : Handler) (w : ResponseWriter) (r : Request) : Served :=
  -- session, err := mgo.Dial("mongodb://" + dbURL)
  let (session, err) := mgoDial dialErr ("mongodb://" ++ dbURL)
  let calls := [Call.mgoDial ("mongodb://" ++ dbURL) session]
  -- if err != nil: log.Println, http.Error; the branch has no return
  let (w, calls) := match err with
    | some e =>
        (httpError w "Unable to connect to database" 500,
          calls ++ [Call.logPrintln ["DB Connect error: ", e],
                    Call.httpError "Unable to connect to database" 500])
    | none => (w, calls)
  -- reqSession := session.Clone()
  let calls := calls ++ [Call.Clone session]
  match session with
  | none =>
    -- Clone locks a field of its receiver: through a nil receiver it panics
    { w := w, calls := calls, exit := Exit.panicked nilDereference }
  | some session =>
    let reqSession := session.Clone
    -- defer reqSession.Close()
    -- db := reqSession.DB(dbName)
    let db := reqSession.DB dbName
    let calls := calls ++ [Call.DB reqSession dbName]
    -- ctx := context.WithValue(r.Context(), helpers.DbKey, db)
    let ctx := r.Context.WithValue DbKey (Value.database db)
    -- next.ServeHTTP(w, r.WithContext(ctx))
    let calls := calls ++ [Call.ServeHTTP (r.WithContext ctx)]
    let (w, exit) := next w (r.WithContext ctx)
    -- the deferred reqSession.Close() runs on return and on panic
    { w := w, calls := calls ++ [Call.Close reqSession], exit := exit }

/-! ## Startup -/

/-- What `main` finds at startup: the error of `godotenv.Load("config.env")`, if
any, and the environment `os.Getenv` reads afterwards (unset names read as the
empty string). -/
structure Config where
  loadErr : Option String
  getenv : String → String

/-- How the process leaves `main`. -/
inductive ProcExit where
  | osExit (code : Nat)
  | returned
deriving DecidableEq, Repr

/-- A run of `main`: its calls in order, the router it built, and its end. -/
structure Run where
  calls : List Call
  router : Option Mux
  exit : ProcExit
deriving DecidableEq, Repr

/-- The function `loginRouter` (lines 93-101). -/
def loginRouter : Mux :=
  let r := NewRouter
  let r := r.Use Middleware.NoCache
  let r := r.Use Middleware.BasicMiddleware
  let r := r.Get "/" HandlerFunc.SignInHandler
  r

/-- The function `APIRouter` (lines 104-114). -/
def APIRouter : Mux :=
  let r := NewRouter
  let r := r.Use Middleware.NoCache
  let r := r.Use Middleware.JwtAuthMiddleware
  let r := r.Get "/me" HandlerFunc.GetMeHandler
  let r := r.Put "/me" HandlerFunc.UpdateMeHandler
  r

/-- The router `main` sets up (lines 57-81), for the captured `dbURL` and `dbName`. -/
def rootRouter (dbURL dbName : String) : Mux :=
  let r := NewRouter
  let r := r.Use Middleware.Logger
  let r := r.Use Middleware.RequestID
  let r := r.Use Middleware.RealIP
  let r := r.Use Middleware.Logger
  let r := r.Use Middleware.Recoverer
  let r := r.Use (Middleware.mongoMiddleware dbURL dbName)
  let r := r.Use Middleware.CloseNotify
  let r := r.Use (Middleware.Timeout (60 * Second))
  let r := r.Post "/v1/signup" HandlerFunc.SignUpHandler
  let r := r.Mount "/v1/login" loginRouter
  let r := r.Mount "/v1" APIRouter
  r

/-- The function `main` (lines 23-88). -/
def main (cfg : Config) : Run :=
  -- err := godotenv.Load("config.env")
  let calls := [Call.godotenvLoad "config.env"]
  match cfg.loadErr with
  | some _ =>
    -- log.Fatal prints the message and exits with status 1
    { calls := calls ++ [Call.logFatal "Error loading .env file"], router := none,
      exit := ProcExit.osExit 1 }
  | none =>
    let jwtSecret := cfg.getenv "JWT_SECRET"
    let calls := calls ++ [Call.osGetenv "JWT_SECRET"]
    let serverPort := cfg.getenv "SERVER_PORT"
    let calls := calls ++ [Call.osGetenv "SERVER_PORT"]
    let dbURL := cfg.getenv "DB_URL"
    let calls := calls ++ [Call.osGetenv "DB_URL"]
    let dbName := cfg.getenv "DB_NAME"
    let calls := calls ++ [Call.osGetenv "DB_NAME"]
    -- helpers.SetJwtSecret([]byte(jwtSecret))
    let calls := calls ++ [Call.SetJwtSecret (bytes jwtSecret)]
    let r := rootRouter dbURL dbName
    let serveAddr := ":" ++ serverPort
    let calls := calls ++ [Call.logPrintln ["API Server listening on: " ++ serverPort]]
    -- http.ListenAndServe(serveAddr, r)
    let calls := calls ++ [Call.ListenAndServe serveAddr r]
    { calls := calls, router := some r, exit := ProcExit.returned }

/-! ## Concrete inputs used below -/

/-- A driver on which every dial succeeds. -/
def dialOk : String → Option String := fun _ => none

/-- A driver on which every dial fails with a refused connection. -/
def dialRefused : String → Option String := fun _ => some "no reachable servers"

/-- A downstream handler that answers 200 and returns. -/
def okHandler : Handler := fun w _ => ((w.WriteHeader 200).Write "ok", Exit.returned)

/-- A GET /v1/me request with an empty context. -/
def sampleRequest : Request := { method := "GET", path := "/v1/me", ctx := Context.background }

/-- A configuration whose file loads and sets all four names. -/
def sampleConfig : Config :=
  { loadErr := none,
    getenv := fun name =>
      if name = "JWT_SECRET" then "s3cret"
      else if name = "SERVER_PORT" then "8080"
      else if name = "DB_URL" then "localhost"
      else if name = "DB_NAME" then "goapi"
      else "" }

/-- A configuration whose file loads but leaves JWT_SECRET unset. -/
def noSecretConfig : Config :=
  { loadErr := none,
    getenv := fun name =>
      if name = "SERVER_PORT" then "8080"
      else if name = "DB_URL" then "localhost"
      else if name = "DB_NAME" then "goapi"
      else "" }

/-- A configuration whose file cannot be loaded. -/
def missingFileConfig : Config :=
  { loadErr := some "open config.env: no such file or directory", getenv := fun _ => "" }

/-! ## Helper lemmas -/

theorem mongoMiddleware_dial_failed (dialErr : String → Option String) (DbKey : Key)
    (dbURL dbName : String) (next : Handler) (w : ResponseWriter) (r : Request) (e : String)
    (h : dialErr ("mongodb://" ++ dbURL) = some e) :
    mongoMiddleware dialErr DbKey dbURL dbName next w r =
      { w := httpError w "Unable to connect to database" 500,
        calls := [Call.mgoDial ("mongodb://" ++ dbURL) none,
                  Call.logPrintln ["DB Connect error: ", e],
                  Call.httpError "Unable to connect to database" 500,
                  Call.Clone none],
        exit := Exit.panicked nilDereference } := by
  simp [mongoMiddleware, mgoDial, h]

theorem mongoMiddleware_dial_ok (dialErr : String → Option String) (DbKey : Key)
    (dbURL dbName : String) (next : Handler) (w : ResponseWriter) (r : Request)
    (h : dialErr ("mongodb://" ++ dbURL) = none) :
    mongoMiddleware dialErr DbKey dbURL dbName next w r =
      { w := (next w (r.WithContext (r.Context.WithValue DbKey
                (Value.database ((Session.dialled ("mongodb://" ++ dbURL)).Clone.DB dbName))))).1,
        calls := [Call.mgoDial ("mongodb://" ++ dbURL) (some (Session.dialled ("mongodb://" ++ dbURL))),
                  Call.Clone (some (Session.dialled ("mongodb://" ++ dbURL))),
                  Call.DB (Session.dialled ("mongodb://" ++ dbURL)).Clone dbName,
                  Call.ServeHTTP (r.WithContext (r.Context.WithValue DbKey
                    (Value.database ((Session.dialled ("mongodb://" ++ dbURL)).Clone.DB dbName)))),
                  Call.Close (Session.dialled ("mongodb://" ++ dbURL)).Clone],
        exit := (next w (r.WithContext (r.Context.WithValue DbKey
                (Value.database ((Session.dialled ("mongodb://" ++ dbURL)).Clone.DB dbName))))).2 } := by
  simp [mongoMiddleware, mgoDial, h]

theorem httpError_fresh (w : ResponseWriter) (msg : String) (code : Nat) (h : w.status = none) :
    (httpError w msg code).status = some code ∧
    (httpError w msg code).body = w.body ++ (msg ++ "\n") ∧
    (httpError w msg code).GetHeader "Content-Type" = some "text/plain; charset=utf-8" := by
  simp [httpError, ResponseWriter.Write, ResponseWriter.WriteHeader, ResponseWriter.SetHeader,
    ResponseWriter.GetHeader, h]

/-! ## The database scoping middleware: claims -/

/-- C1: whenever `mgo.Dial` returns an error, the middleware answers through
`http.Error` with the text "Unable to connect to database" and code 500 (on a
writer not yet written to this is status 500, a plain-text content type and
that text as the body), and `next.ServeHTTP` is not called: the calls it makes
are the dial, the log line, `http.Error` and the `Clone` on the nil session,
and the outcome does not depend on `next`. -/
theorem mongoMiddleware_dial_error_responds_500 (dialErr : String → Option String) (DbKey : Key)
    (dbURL dbName : String) (next : Handler) (w : ResponseWriter) (r : Request)
    (h : (mgoDial dialErr ("mongodb://" ++ dbURL)).2 ≠ none) :
    (mongoMiddleware dialErr DbKey dbURL dbName next w r).w
        = httpError w "Unable to connect to database" 500 ∧
    Call.httpError "Unable to connect to database" 500
        ∈ (mongoMiddleware dialErr DbKey dbURL dbName next w r).calls ∧
    (w.status = none →
      (mongoMiddleware dialErr DbKey dbURL dbName next w r).w.status = some 500 ∧
      (mongoMiddleware dialErr DbKey dbURL dbName next w r).w.body
        = w.body ++ "Unable to connect to database\n" ∧
      (mongoMiddleware dialErr DbKey dbURL dbName next w r).w.GetHeader "Content-Type"
        = some "text/plain; charset=utf-8") ∧
    (mongoMiddleware dialErr DbKey dbURL dbName next w r).calls.countP Call.isServeHTTP = 0 ∧
    (∀ other : Handler, mongoMiddleware dialErr DbKey dbURL dbName other w r
        = mongoMiddleware dialErr DbKey dbURL dbName next w r) := by
  cases hd : dialErr ("mongodb://" ++ dbURL) with
  | none => simp [mgoDial, hd] at h
  | some e =>
    have hn := mongoMiddleware_dial_failed dialErr DbKey dbURL dbName next w r e hd
    refine ⟨by rw [hn], by rw [hn]; simp, ?_, by rw [hn]; simp [Call.isServeHTTP], ?_⟩
    · intro hw
      rw [hn]
      exact httpError_fresh w "Unable to connect to database" 500 hw
    · intro other
      rw [hn, mongoMiddleware_dial_failed dialErr DbKey dbURL dbName other w r e hd]

/-- Witness for C1: a refused dial on a fresh writer. -/
theorem mongoMiddleware_dial_error_responds_500_witness :
    (mongoMiddleware dialRefused "db" "localhost" "goapi" okHandler ResponseWriter.fresh sampleRequest).w.status
        = some 500 ∧
    (mongoMiddleware dialRefused "db" "localhost" "goapi" okHandler ResponseWriter.fresh sampleRequest).w.body
        = "Unable to connect to database\n" ∧
    (mongoMiddleware dialRefused "db" "localhost" "goapi" okHandler ResponseWriter.fresh
        sampleRequest).calls.countP Call.isServeHTTP = 0 := by
  have h := mongoMiddleware_dial_error_responds_500 dialRefused "db" "localhost" "goapi" okHandler
    ResponseWriter.fresh sampleRequest (by simp [mgoDial, dialRefused])
  refine ⟨(h.2.2.1 rfl).1, ?_, h.2.2.2.1⟩
  have hb := (h.2.2.1 rfl).2.1
  simpa [ResponseWriter.fresh] using hb

/-- C2 (the code at a request whose dial succeeds): whatever the downstream
handler does, return or panic, the middleware has opened two sessions, the one
`mgo.Dial` returned and its clone; it closes the clone once and never closes
the dialled session (so also for DB_URL localhost in front of a handler that
answers 200). -/
theorem mongoMiddleware_leaves_dialled_session_open (DbKey : Key) (dbURL dbName : String)
    (next : Handler) (w : ResponseWriter) (r : Request) :
    opened (mongoMiddleware dialOk DbKey dbURL dbName next w r).calls
        = [Session.dialled ("mongodb://" ++ dbURL),
           (Session.dialled ("mongodb://" ++ dbURL)).Clone] ∧
    closeCount (mongoMiddleware dialOk DbKey dbURL dbName next w r).calls
        (Session.dialled ("mongodb://" ++ dbURL)).Clone = 1 ∧
    closeCount (mongoMiddleware dialOk DbKey dbURL dbName next w r).calls
        (Session.dialled ("mongodb://" ++ dbURL)) = 0 ∧
    closeCount (mongoMiddleware dialOk "db" "localhost" "goapi" okHandler ResponseWriter.fresh
        sampleRequest).calls (Session.dialled "mongodb://localhost") = 0 := by
  have hn := mongoMiddleware_dial_ok dialOk DbKey dbURL dbName next w r rfl
  have hc := mongoMiddleware_dial_ok dialOk "db" "localhost" "goapi" okHandler
    ResponseWriter.fresh sampleRequest rfl
  rw [hn, hc]
  simp [opened, closeCount, Session.Clone]

/-- C10 (the code at a request whose dial fails): the error branch does not
return, so `Clone` is still called, on the nil session `mgo.Dial` returned
together with the error, and the handler ends in a nil-dereference panic; for
DB_URL localhost the calls are the dial, the log line, `http.Error` and that
`Clone`. -/
theorem mongoMiddleware_clones_after_failed_dial (DbKey : Key) (dbURL dbName : String)
    (next : Handler) (w : ResponseWriter) (r : Request) :
    mgoDial dialRefused ("mongodb://" ++ dbURL) = (none, some "no reachable servers") ∧
    Call.Clone none ∈ (mongoMiddleware dialRefused DbKey dbURL dbName next w r).calls ∧
    (mongoMiddleware dialRefused DbKey dbURL dbName next w r).calls.any Call.usesSession
        = true ∧
    (mongoMiddleware dialRefused DbKey dbURL dbName next w r).exit
        = Exit.panicked nilDereference ∧
    (mongoMiddleware dialRefused "db" "localhost" "goapi" okHandler ResponseWriter.fresh
        sampleRequest).calls
      = [Call.mgoDial "mongodb://localhost" none,
         Call.logPrintln ["DB Connect error: ", "no reachable servers"],
         Call.httpError "Unable to connect to database" 500,
         Call.Clone none] := by
  have hn := mongoMiddleware_dial_failed dialRefused DbKey dbURL dbName next w r
    "no reachable servers" rfl
  have hc := mongoMiddleware_dial_failed dialRefused "db" "localhost" "goapi" okHandler
    ResponseWriter.fresh sampleRequest "no reachable servers" rfl
  rw [hn, hc]
  simp [mgoDial, dialRefused, Call.usesSession]

/-- C3: for the closure `main` builds (capturing DB_URL and DB_NAME as read from
the environment), on every request whose dial succeeds `next.ServeHTTP` is called
exactly once, with a copy of the request whose context is the incoming context
extended by the single binding of `helpers.DbKey` to the database handle named
DB_NAME on the clone of the session dialled at "mongodb://" + DB_URL; that
handle is not nil, every other key reads as in the incoming context, and the
writer and the exit are those the downstream handler produced. -/
theorem mongoMiddleware_passes_database_context (cfg : Config) (dialErr : String → Option String)
    (DbKey : Key) (next : Handler) (w : ResponseWriter) (r : Request)
    (h : (mgoDial dialErr ("mongodb://" ++ cfg.getenv "DB_URL")).2 = none) :
    ∃ r2 : Request,
      (mongoMiddleware dialErr DbKey (cfg.getenv "DB_URL") (cfg.getenv "DB_NAME") next w r).calls.filter
          Call.isServeHTTP = [Call.ServeHTTP r2] ∧
      r2.method = r.method ∧ r2.path = r.path ∧
      r2.Context = Context.withValue r.Context DbKey (Value.database
          { session := Session.cloned (Session.dialled ("mongodb://" ++ cfg.getenv "DB_URL")),
            name := cfg.getenv "DB_NAME" }) ∧
      r2.Context.Value DbKey ≠ Value.nil ∧
      (∀ key : Key, key ≠ DbKey → r2.Context.Value key = r.Context.Value key) ∧
      Call.mgoDial ("mongodb://" ++ cfg.getenv "DB_URL")
          (some (Session.dialled ("mongodb://" ++ cfg.getenv "DB_URL")))
        ∈ (mongoMiddleware dialErr DbKey (cfg.getenv "DB_URL") (cfg.getenv "DB_NAME") next w r).calls ∧
      Call.Clone (some (Session.dialled ("mongodb://" ++ cfg.getenv "DB_URL")))
        ∈ (mongoMiddleware dialErr DbKey (cfg.getenv "DB_URL") (cfg.getenv "DB_NAME") next w r).calls ∧
      ((mongoMiddleware dialErr DbKey (cfg.getenv "DB_URL") (cfg.getenv "DB_NAME") next w r).w,
        (mongoMiddleware dialErr DbKey (cfg.getenv "DB_URL") (cfg.getenv "DB_NAME") next w r).exit)
          = next w r2 := by
  cases hd : dialErr ("mongodb://" ++ cfg.getenv "DB_URL") with
  | some e => simp [mgoDial, hd] at h
  | none =>
    have hn := mongoMiddleware_dial_ok dialErr DbKey (cfg.getenv "DB_URL") (cfg.getenv "DB_NAME")
      next w r hd
    refine ⟨r.WithContext (r.Context.WithValue DbKey (Value.database
      ((Session.dialled ("mongodb://" ++ cfg.getenv "DB_URL")).Clone.DB (cfg.getenv "DB_NAME")))),
      ?_, rfl, rfl, rfl, ?_, ?_, ?_, ?_, ?_⟩
    · rw [hn]; simp [List.filter, Call.isServeHTTP]
    · simp [Request.WithContext, Request.Context, Context.WithValue, Context.Value]
    · intro key hk
      have hk2 : ¬ DbKey = key := fun he => hk he.symm
      simp [Request.WithContext, Request.Context, Context.WithValue, Context.Value, hk2]
    · rw [hn]; simp
    · rw [hn]; simp
    · rw [hn]

/-- Witness for C3: a successful dial in front of a handler that answers 200. -/
theorem mongoMiddleware_passes_database_context_witness :
    ∃ r2 : Request,
      (mongoMiddleware dialOk "db" "localhost" "goapi" okHandler ResponseWriter.fresh
          sampleRequest).calls.filter Call.isServeHTTP = [Call.ServeHTTP r2] ∧
      r2.Context.Value "db" = Value.database
          { session := Session.cloned (Session.dialled "mongodb://localhost"), name := "goapi" } := by
  obtain ⟨r2, h1, _, _, h4, _, _, _, _, _⟩ :=
    mongoMiddleware_passes_database_context sampleConfig dialOk "db" okHandler
      ResponseWriter.fresh sampleRequest (by simp [mgoDial, dialOk])
  refine ⟨r2, ?_, ?_⟩
  · simpa [sampleConfig] using h1
  · rw [h4]
    simp [Context.Value, sampleConfig, sampleRequest, Request.Context]

/-! ## Startup: claims -/

/-- C9: when `godotenv.Load("config.env")` fails, `main` makes exactly two calls, the
load and `log.Fatal`, and exits with a non-zero status: no `os.Getenv`, no
`helpers.SetJwtSecret`, no router and no `http.ListenAndServe`. -/
theorem main_load_failure_exits_first (cfg : Config) (h : cfg.loadErr ≠ none) :
    (main cfg).calls
        = [Call.godotenvLoad "config.env", Call.logFatal "Error loading .env file"] ∧
    (∃ code : Nat, (main cfg).exit = ProcExit.osExit code ∧ code ≠ 0) ∧
    (main cfg).calls.countP Call.isGetenv = 0 ∧
    (main cfg).calls.countP Call.isSetJwtSecret = 0 ∧
    (main cfg).router = none ∧
    (main cfg).calls.countP Call.isListenAndServe = 0 := by
  cases hl : cfg.loadErr with
  | none => exact absurd hl h
  | some e =>
    simp [main, hl, Call.isGetenv, Call.isSetJwtSecret, Call.isListenAndServe]

/-- Witness for C9: a missing config.env. -/
theorem main_load_failure_exits_first_witness :
    (main missingFileConfig).exit = ProcExit.osExit 1 ∧
    (main missingFileConfig).calls.countP Call.isListenAndServe = 0 := by
  have h := main_load_failure_exits_first missingFileConfig (by simp [missingFileConfig])
  refine ⟨?_, h.2.2.2.2.2⟩
  simp [main, missingFileConfig]

/-- C8: on every run of `main` that calls `http.ListenAndServe`, the calls to the
setter and to the listener are, in order, one `helpers.SetJwtSecret` with the
bytes of JWT_SECRET and then one `http.ListenAndServe`, which is the last call of
`main`; and the per-request closure `mongoMiddleware` never calls the setter. -/
theorem main_sets_secret_once_before_listening (cfg : Config)
    (h : (main cfg).calls.any Call.isListenAndServe = true) :
    (main cfg).calls.countP Call.isSetJwtSecret = 1 ∧
    (main cfg).calls.filter (fun c => c.isSetJwtSecret || c.isListenAndServe)
        = [Call.SetJwtSecret (bytes (cfg.getenv "JWT_SECRET")),
           Call.ListenAndServe (":" ++ cfg.getenv "SERVER_PORT")
             (rootRouter (cfg.getenv "DB_URL") (cfg.getenv "DB_NAME"))] ∧
    (main cfg).calls.getLast? = some (Call.ListenAndServe (":" ++ cfg.getenv "SERVER_PORT")
        (rootRouter (cfg.getenv "DB_URL") (cfg.getenv "DB_NAME"))) ∧
    (∀ (dialErr : String → Option String) (DbKey : Key) (next : Handler) (w : ResponseWriter)
        (r : Request),
      (mongoMiddleware dialErr DbKey (cfg.getenv "DB_URL") (cfg.getenv "DB_NAME") next w r).calls.countP
        Call.isSetJwtSecret = 0) := by
  cases hl : cfg.loadErr with
  | some e => simp [main, hl, Call.isListenAndServe] at h
  | none =>
    refine ⟨?_, ?_, ?_, ?_⟩
    · simp [main, hl, Call.isSetJwtSecret]
    · simp [main, hl, List.filter, Call.isSetJwtSecret, Call.isListenAndServe]
    · simp [main, hl]
    · intro dialErr DbKey next w r
      cases hd : dialErr ("mongodb://" ++ cfg.getenv "DB_URL") with
      | none =>
        rw [mongoMiddleware_dial_ok dialErr DbKey _ _ next w r hd]
        simp [Call.isSetJwtSecret]
      | some e =>
        rw [mongoMiddleware_dial_failed dialErr DbKey _ _ next w r e hd]
        simp [Call.isSetJwtSecret]

/-- Witness for C8: the sample configuration reaches the listener. -/
theorem main_sets_secret_once_before_listening_witness :
    (main sampleConfig).calls.any Call.isListenAndServe = true ∧
    (main sampleConfig).calls.countP Call.isSetJwtSecret = 1 ∧
    (main sampleConfig).calls.filter (fun c => c.isSetJwtSecret || c.isListenAndServe)
        = [Call.SetJwtSecret (bytes "s3cret"),
           Call.ListenAndServe ":8080" (rootRouter "localhost" "goapi")] := by
  have hr : (main sampleConfig).calls.any Call.isListenAndServe = true := by
    simp [main, sampleConfig, Call.isListenAndServe]
  have h := main_sets_secret_once_before_listening sampleConfig hr
  refine ⟨hr, h.1, ?_⟩
  have h2 := h.2.1
  have hp : (":" ++ "8080" : String) = ":8080" := by decide
  simpa [sampleConfig, hp] using h2

/-- C7, as stated, fails: with config.env loaded and JWT_SECRET unset, `main`
still calls `helpers.SetJwtSecret` (with no bytes), reaches
`http.ListenAndServe`, and never calls `log.Fatal`. -/
theorem main_empty_secret_still_listens :
    noSecretConfig.getenv "JWT_SECRET" = "" ∧
    (main noSecretConfig).calls
      = [Call.godotenvLoad "config.env", Call.osGetenv "JWT_SECRET", Call.osGetenv "SERVER_PORT",
         Call.osGetenv "DB_URL", Call.osGetenv "DB_NAME", Call.SetJwtSecret [],
         Call.logPrintln ["API Server listening on: 8080"],
         Call.ListenAndServe ":8080" (rootRouter "localhost" "goapi")] ∧
    (main noSecretConfig).exit = ProcExit.returned := by
  have hb : bytes "" = [] := by decide
  simp [main, noSecretConfig, hb]

/-- C7 amended: for every configuration whose file loads, an empty or unset
JWT_SECRET is not an error for `main`: it installs the empty byte string through
`helpers.SetJwtSecret` exactly once, then calls `http.ListenAndServe` as its last
call, and does not exit through `log.Fatal`. -/
theorem main_installs_empty_secret (cfg : Config) (hl : cfg.loadErr = none)
    (hs : cfg.getenv "JWT_SECRET" = "") :
    (main cfg).calls.filter (fun c => c.isSetJwtSecret || c.isListenAndServe)
        = [Call.SetJwtSecret [],
           Call.ListenAndServe (":" ++ cfg.getenv "SERVER_PORT")
             (rootRouter (cfg.getenv "DB_URL") (cfg.getenv "DB_NAME"))] ∧
    (main cfg).calls.getLast? = some (Call.ListenAndServe (":" ++ cfg.getenv "SERVER_PORT")
        (rootRouter (cfg.getenv "DB_URL") (cfg.getenv "DB_NAME"))) ∧
    Call.logFatal "Error loading .env file" ∉ (main cfg).calls ∧
    (main cfg).exit = ProcExit.returned := by
  have hb : bytes "" = [] := by decide
  refine ⟨?_, ?_, ?_, ?_⟩
  · simp [main, hl, hs, hb, List.filter, Call.isSetJwtSecret, Call.isListenAndServe]
  · simp [main, hl]
  · simp [main, hl]
  · simp [main, hl]

/-- Witness for C7 amended: the configuration without JWT_SECRET. -/
theorem main_installs_empty_secret_witness :
    (main noSecretConfig).calls.filter (fun c => c.isSetJwtSecret || c.isListenAndServe)
        = [Call.SetJwtSecret [], Call.ListenAndServe ":8080" (rootRouter "localhost" "goapi")] ∧
    (main noSecretConfig).exit = ProcExit.returned := by
  have h := main_installs_empty_secret noSecretConfig rfl (by simp [noSecretConfig])
  refine ⟨?_, h.2.2.2⟩
  have h1 := h.1
  simpa [noSecretConfig] using h1

/-! ## The router: claims -/

/-- C4 (the code): the stack of the root router, outermost first, has eight layers,
not seven: `middleware.Logger` is registered twice, once before
`middleware.RequestID` and once after `middleware.RealIP`; without its first
element the stack is the seven-layer pipeline, and this is the router a run of
`main` hands to the listener. -/
theorem rootRouter_registers_logger_twice (dbURL dbName : String) :
    (rootRouter dbURL dbName).middlewares
      = [Middleware.Logger, Middleware.RequestID, Middleware.RealIP, Middleware.Logger,
         Middleware.Recoverer, Middleware.mongoMiddleware dbURL dbName, Middleware.CloseNotify,
         Middleware.Timeout 60000000000] ∧
    (rootRouter dbURL dbName).middlewares.length = 8 ∧
    (rootRouter dbURL dbName).middlewares
      ≠ [Middleware.RequestID, Middleware.RealIP, Middleware.Logger,
         Middleware.Recoverer, Middleware.mongoMiddleware dbURL dbName, Middleware.CloseNotify,
         Middleware.Timeout (60 * Second)] ∧
    (rootRouter dbURL dbName).middlewares.tail
      = [Middleware.RequestID, Middleware.RealIP, Middleware.Logger,
         Middleware.Recoverer, Middleware.mongoMiddleware dbURL dbName, Middleware.CloseNotify,
         Middleware.Timeout (60 * Second)] ∧
    (main sampleConfig).router = some (rootRouter "localhost" "goapi") := by
  refine ⟨?_, ?_, ?_, ?_, ?_⟩
  · simp [rootRouter, NewRouter, Mux.Use, Mux.Post, Mux.Mount, Mux.handle, Second]
  · simp [rootRouter, NewRouter, Mux.Use, Mux.Post, Mux.Mount, Mux.handle]
  · simp [rootRouter, NewRouter, Mux.Use, Mux.Post, Mux.Mount, Mux.handle]
  · simp [rootRouter, NewRouter, Mux.Use, Mux.Post, Mux.Mount, Mux.handle]
  · simp [main, sampleConfig]

theorem rootRouter_routes (dbURL dbName : String) :
    (rootRouter dbURL dbName).routes
      = [{ method := "POST", pattern := "/v1/signup", middlewares := [],
           handler := HandlerFunc.SignUpHandler },
         { method := "GET", pattern := "/v1/login",
           middlewares := [Middleware.NoCache, Middleware.BasicMiddleware],
           handler := HandlerFunc.SignInHandler },
         { method := "GET", pattern := "/v1/login/",
           middlewares := [Middleware.NoCache, Middleware.BasicMiddleware],
           handler := HandlerFunc.SignInHandler },
         { method := "GET", pattern := "/v1/me",
           middlewares := [Middleware.NoCache, Middleware.JwtAuthMiddleware],
           handler := HandlerFunc.GetMeHandler },
         { method := "PUT", pattern := "/v1/me",
           middlewares := [Middleware.NoCache, Middleware.JwtAuthMiddleware],
           handler := HandlerFunc.UpdateMeHandler }] := by
  have h1 : endsInSlash "/v1/login" = false := by decide
  have h2 : endsInSlash "/v1" = false := by decide
  simp [rootRouter, loginRouter, APIRouter, NewRouter, Mux.Use, Mux.Post, Mux.Get, Mux.Put,
    Mux.Mount, Mux.handle, Mux.rebind, mountBase, h1, h2, List.filter]

theorem rootRouter_middlewares (dbURL dbName : String) :
    (rootRouter dbURL dbName).middlewares
      = [Middleware.Logger, Middleware.RequestID, Middleware.RealIP, Middleware.Logger,
         Middleware.Recoverer, Middleware.mongoMiddleware dbURL dbName, Middleware.CloseNotify,
         Middleware.Timeout (60 * Second)] := by
  simp [rootRouter, NewRouter, Mux.Use, Mux.Post, Mux.Mount, Mux.handle]

/-- C5: in the stack of every route of the root router (the global stack followed
by the sub-router stack), `Recoverer` wraps the database middleware; the
database middleware wraps `BasicMiddleware` and `JwtAuthMiddleware` wherever
they occur, which is on the sign-in route and on the two profile routes; and
the 60-second `Timeout` is the last layer of the global stack, occurs there
once, and is wrapped by every other global layer. -/
theorem pipeline_ordering (dbURL dbName : String) (rt : Route)
    (h : rt ∈ (rootRouter dbURL dbName).routes) :
    wraps Middleware.Recoverer (Middleware.mongoMiddleware dbURL dbName)
        ((rootRouter dbURL dbName).stack rt) = true ∧
    (Middleware.BasicMiddleware ∈ (rootRouter dbURL dbName).stack rt →
      wraps (Middleware.mongoMiddleware dbURL dbName) Middleware.BasicMiddleware
        ((rootRouter dbURL dbName).stack rt) = true) ∧
    (Middleware.JwtAuthMiddleware ∈ (rootRouter dbURL dbName).stack rt →
      wraps (Middleware.mongoMiddleware dbURL dbName) Middleware.JwtAuthMiddleware
        ((rootRouter dbURL dbName).stack rt) = true) ∧
    (rt.handler = HandlerFunc.SignInHandler →
      Middleware.BasicMiddleware ∈ (rootRouter dbURL dbName).stack rt) ∧
    (rt.handler = HandlerFunc.GetMeHandler ∨ rt.handler = HandlerFunc.UpdateMeHandler →
      Middleware.JwtAuthMiddleware ∈ (rootRouter dbURL dbName).stack rt) ∧
    (rootRouter dbURL dbName).middlewares.getLast? = some (Middleware.Timeout (60 * Second)) ∧
    (rootRouter dbURL dbName).middlewares.count (Middleware.Timeout (60 * Second)) = 1 ∧
    (∀ m ∈ (rootRouter dbURL dbName).middlewares, m ≠ Middleware.Timeout (60 * Second) →
      wraps m (Middleware.Timeout (60 * Second)) (rootRouter dbURL dbName).middlewares = true ∧
      wraps m (Middleware.Timeout (60 * Second)) ((rootRouter dbURL dbName).stack rt) = true) := by
  rw [rootRouter_routes] at h
  simp only [Mux.stack, rootRouter_middlewares]
  simp only [List.mem_cons, List.mem_singleton, List.not_mem_nil, or_false] at h
  rcases h with h | h | h | h | h <;> subst h
  all_goals
    refine ⟨?_, ?_, ?_, ?_, ?_, ?_, ?_, ?_⟩
    all_goals simp [wraps, List.indexOf_cons, List.count_cons]
  all_goals simp [beq_eq_false_iff_ne, cond_eq_if]

/-- Witness for C5: the sign-in route. -/
theorem pipeline_ordering_witness :
    wraps Middleware.Recoverer (Middleware.mongoMiddleware "localhost" "goapi")
        ((rootRouter "localhost" "goapi").stack
          { method := "GET", pattern := "/v1/login",
            middlewares := [Middleware.NoCache, Middleware.BasicMiddleware],
            handler := HandlerFunc.SignInHandler }) = true ∧
    wraps (Middleware.mongoMiddleware "localhost" "goapi") Middleware.BasicMiddleware
        ((rootRouter "localhost" "goapi").stack
          { method := "GET", pattern := "/v1/login",
            middlewares := [Middleware.NoCache, Middleware.BasicMiddleware],
            handler := HandlerFunc.SignInHandler }) = true := by
  have h := pipeline_ordering "localhost" "goapi"
    { method := "GET", pattern := "/v1/login",
      middlewares := [Middleware.NoCache, Middleware.BasicMiddleware],
      handler := HandlerFunc.SignInHandler }
    (by rw [rootRouter_routes]; simp)
  exact ⟨h.1, h.2.1 (h.2.2.2.1 rfl)⟩

/-- C6, as stated, fails: GET /v1/login/, the mount point of the login router
followed by a slash, is not one of the four method and path pairs of the
claim, and the route table serves it with the sign-in handler behind `NoCache`
and `BasicMiddleware`. -/
theorem login_trailing_slash_reaches_sign_in :
    (rootRouter "localhost" "goapi").dispatch "GET" "/v1/login/"
      = some { method := "GET", pattern := "/v1/login/",
               middlewares := [Middleware.NoCache, Middleware.BasicMiddleware],
               handler := HandlerFunc.SignInHandler } ∧
    ("GET", "/v1/login/") ∉
      [("POST", "/v1/signup"), ("GET", "/v1/login"), ("GET", "/v1/me"), ("PUT", "/v1/me")] := by
  refine ⟨?_, by decide⟩
  rw [Mux.dispatch, rootRouter_routes]; simp [List.find?]

/-- C6 amended: POST /v1/signup reaches the signup handler behind the global
stack alone; GET /v1/login, and GET /v1/login/ as well, reach the sign-in handler
behind the global stack, `NoCache`, then `BasicMiddleware`; GET /v1/me and
PUT /v1/me reach the get-me and update-me handlers behind the global stack,
`NoCache`, then `JwtAuthMiddleware`; the table has these five bindings, and
every method and path it serves is one of the five, with that handler. -/
theorem route_table_dispatch (dbURL dbName : String) :
    (rootRouter dbURL dbName).dispatch "POST" "/v1/signup"
      = some { method := "POST", pattern := "/v1/signup", middlewares := [],
               handler := HandlerFunc.SignUpHandler } ∧
    (rootRouter dbURL dbName).dispatch "GET" "/v1/login"
      = some { method := "GET", pattern := "/v1/login",
               middlewares := [Middleware.NoCache, Middleware.BasicMiddleware],
               handler := HandlerFunc.SignInHandler } ∧
    (rootRouter dbURL dbName).dispatch "GET" "/v1/login/"
      = some { method := "GET", pattern := "/v1/login/",
               middlewares := [Middleware.NoCache, Middleware.BasicMiddleware],
               handler := HandlerFunc.SignInHandler } ∧
    (rootRouter dbURL dbName).dispatch "GET" "/v1/me"
      = some { method := "GET", pattern := "/v1/me",
               middlewares := [Middleware.NoCache, Middleware.JwtAuthMiddleware],
               handler := HandlerFunc.GetMeHandler } ∧
    (rootRouter dbURL dbName).dispatch "PUT" "/v1/me"
      = some { method := "PUT", pattern := "/v1/me",
               middlewares := [Middleware.NoCache, Middleware.JwtAuthMiddleware],
               handler := HandlerFunc.UpdateMeHandler } ∧
    (∀ rt ∈ (rootRouter dbURL dbName).routes,
      (rootRouter dbURL dbName).stack rt = (rootRouter dbURL dbName).middlewares ++ rt.middlewares) ∧
    (rootRouter dbURL dbName).routes.length = 5 ∧
    (∀ (method path : String) (rt : Route),
      (rootRouter dbURL dbName).dispatch method path = some rt →
      (method, path, rt.handler) ∈
        [("POST", "/v1/signup", HandlerFunc.SignUpHandler),
         ("GET", "/v1/login", HandlerFunc.SignInHandler),
         ("GET", "/v1/login/", HandlerFunc.SignInHandler),
         ("GET", "/v1/me", HandlerFunc.GetMeHandler),
         ("PUT", "/v1/me", HandlerFunc.UpdateMeHandler)]) := by
  refine ⟨?_, ?_, ?_, ?_, ?_, ?_, ?_, ?_⟩
  · rw [Mux.dispatch, rootRouter_routes]; simp [List.find?]
  · rw [Mux.dispatch, rootRouter_routes]; simp [List.find?]
  · rw [Mux.dispatch, rootRouter_routes]; simp [List.find?]
  · rw [Mux.dispatch, rootRouter_routes]; simp [List.find?]
  · rw [Mux.dispatch, rootRouter_routes]; simp [List.find?]
  · intro rt _
    rfl
  · simp [rootRouter_routes]
  · intro method path rt h
    unfold Mux.dispatch at h
    have hp := List.find?_some h
    have hm := List.mem_of_find?_eq_some h
    rw [rootRouter_routes] at hm
    simp only [Bool.and_eq_true, beq_iff_eq] at hp
    obtain ⟨h1, h2⟩ := hp
    subst h1 h2
    simp only [List.mem_cons, List.mem_singleton, List.not_mem_nil, or_false] at hm
    rcases hm with hm | hm | hm | hm | hm <;> subst hm <;> simp

end GoApi
